import Mathlib

/-!
Verification development for the file-reference resolution and refresh
subsystem of the edulearn-miniapp-system repository.

The Python sources `storage_manager.py` and `database.py` are embedded
shallowly: the MongoDB collections become lists of records, `datetime`
values become integer seconds, and the Telegram upstream is modelled as
an explicit outcome parameter (the result of `bot.get_file`).  Each
definition mirrors one Python function; effect information that the
claims need (whether the upstream was called, whether channel
re-discovery was attempted) is returned explicitly in result structures.
-/

namespace EduLearn

/-- One document of the `file_references` collection.  `channelId` holds
the `metadata["channel_id"]` entry, the only metadata key the refresh
subsystem reads (`channel_name`, `message_id` and `mime_type` are stored
but never read back). Times are integer seconds. -/
structure FileReference where
  referenceId : String
  telegramFileId : String
  fileType : String
  filename : String
  fileSize : Nat
  courseId : Option String
  channelId : Option String
  isActive : Bool
  createdAt : Int
  lastRefreshed : Option Int
deriving Repr, DecidableEq

/-- One document of the `media_files` collection. -/
structure MediaFile where
  referenceId : String
  courseId : Option String
  fileType : String
  filename : String
  fileSize : Nat
  telegramFileId : String
  channelId : String
  messageId : Nat
  order : Nat
  isActive : Bool
deriving Repr, DecidableEq

/-- One document of the `channel_mappings` collection. -/
structure ChannelMapping where
  channelId : String
  courseId : String
  isActive : Bool
deriving Repr, DecidableEq

/-- The mutable database state: the three collections the subsystem touches. -/
structure DBState where
  fileReferences : List FileReference
  mediaFiles : List MediaFile
  channelMappings : List ChannelMapping
deriving Repr, DecidableEq

/-- The `$set` payloads that `Database.update_file_reference` receives in
this repository: `{"telegram_file_id": x}` from the refresh path and
`{"is_active": False}` from the delete path.  A `none` field is absent
from the payload. -/
structure FileRefUpdate where
  telegramFileId : Option String
  isActive : Option Bool
deriving Repr, DecidableEq

/-- Errors raised by the Telegram client on `bot.get_file`.  All four are
subclasses of `TelegramError` in the client library, so the single
`except TelegramError` in `refresh_file_id` catches every one of them,
the transient kinds included. -/
inductive TgError where
  | invalidFile
  | timedOut
  | networkError
  | retryAfter
deriving Repr, DecidableEq

/-- Outcome of an upstream `bot.get_file` call. -/
inductive GetFileOutcome where
  | ok
  | err (e : TgError)
deriving Repr, DecidableEq

/-- `Database.get_file_reference`: `find_one({"reference_id": rid})`,
the first matching document. -/
def get_file_reference (db : DBState) (rid : String) : Option FileReference :=
  db.fileReferences.find? (fun r => r.referenceId == rid)

/-- Apply a `$set` payload the way `update_file_reference` builds it:
the given fields, plus `last_refreshed = datetime.utcnow()`, which that
function stamps unconditionally on every call. -/
def applyFileRefUpdate (now : Int) (u : FileRefUpdate) (r : FileReference) : FileReference :=
  { r with
    telegramFileId := u.telegramFileId.getD r.telegramFileId
    isActive := u.isActive.getD r.isActive
    lastRefreshed := some now }

/-- `update_one` semantics: rewrite the first document matching the
predicate, leave the rest untouched. -/
def updateFirst (p : FileReference → Bool) (f : FileReference → FileReference) :
    List FileReference → List FileReference
  | [] => []
  | x :: xs => if p x then f x :: xs else x :: updateFirst p f xs

/-- `Database.update_file_reference`: stamps `last_refreshed = now`, `$set`s
the payload on the first document with the given `reference_id`, and
reports whether a matching document existed. -/
def update_file_reference (db : DBState) (now : Int) (rid : String) (u : FileRefUpdate) :
    DBState × Bool :=
  ({ db with
      fileReferences :=
        updateFirst (fun r => r.referenceId == rid) (applyFileRefUpdate now u) db.fileReferences },
    db.fileReferences.any (fun r => r.referenceId == rid))

/-- `Database.get_expired_file_references`: all documents with
`last_refreshed < now - hours*3600`.  There is no filter on `is_active`,
and the comparison is strict. A document whose `last_refreshed` is null
does not satisfy the `$lt` comparison. -/
def get_expired_file_references (db : DBState) (now : Int) (hours : Int) :
    List FileReference :=
  db.fileReferences.filter (fun r =>
    match r.lastRefreshed with
    | some t => decide (t < now - hours * 3600)
    | none => false)

/-- `Database.get_channel_mapping`: `find_one({"channel_id": cid})`. -/
def get_channel_mapping (db : DBState) (cid : String) : Option ChannelMapping :=
  db.channelMappings.find? (fun m => m.channelId == cid)

/-- `StorageManager.find_file_in_channel`: the re-discovery stub.  The
source logs and returns `None` unconditionally ("Return None for now"). -/
def find_file_in_channel (_channelId : Option String) (_filename _fileType : String) :
    Option String :=
  none

/-- Result of `refresh_file_id`: the returned file id (None on failure),
the database after the call, and whether Tier-2 re-discovery
(`find_file_in_channel`) was invoked. -/
structure RefreshResult where
  ret : Option String
  db : DBState
  discoveryAttempted : Bool
deriving Repr, DecidableEq

/-- `StorageManager.refresh_file_id`, with the outcome of the
`bot.get_file` probe made explicit.  On success it rewrites the same
`telegram_file_id` (stamping `last_refreshed`); on any `TelegramError`
it falls to `find_file_in_channel`, persisting a new id only when one is
found, and returns `None` otherwise with no database write. -/
def refresh_file_id (db : DBState) (now : Int) (fileRef : FileReference)
    (probe : GetFileOutcome) : RefreshResult :=
  match probe with
  | GetFileOutcome.ok =>
    let upd := update_file_reference db now fileRef.referenceId
      { telegramFileId := some fileRef.telegramFileId, isActive := none }
    { ret := some fileRef.telegramFileId, db := upd.1, discoveryAttempted := false }
  | GetFileOutcome.err _ =>
    match find_file_in_channel fileRef.channelId fileRef.filename fileRef.fileType with
    | some newId =>
      let upd := update_file_reference db now fileRef.referenceId
        { telegramFileId := some newId, isActive := none }
      { ret := some newId, db := upd.1, discoveryAttempted := true }
    | none => { ret := none, db := db, discoveryAttempted := true }

/-- Result of `get_fresh_file_id`: the returned file id, the database
after the call, whether any upstream call happened (the refresh path
always probes), and whether re-discovery was attempted. -/
structure ResolveResult where
  ret : Option String
  db : DBState
  upstreamCalled : Bool
  discoveryAttempted : Bool
deriving Repr, DecidableEq

/-- The TTL check constant: `self.file_refresh_interval = 23` hours. -/
def file_refresh_interval : Int := 23

/-- `StorageManager.get_fresh_file_id`: look the reference up (no
`is_active` filter exists on this path), return the stored id when
`now - last_refreshed < 23*3600` seconds, otherwise refresh. A missing
`last_refreshed` is falsy in the source and forces a refresh. -/
def get_fresh_file_id (db : DBState) (now : Int) (rid : String)
    (probe : GetFileOutcome) : ResolveResult :=
  match get_file_reference db rid with
  | none => { ret := none, db := db, upstreamCalled := false, discoveryAttempted := false }
  | some fr =>
    match fr.lastRefreshed with
    | some lr =>
      if now - lr < file_refresh_interval * 3600 then
        { ret := some fr.telegramFileId, db := db
          upstreamCalled := false, discoveryAttempted := false }
      else
        let r := refresh_file_id db now fr probe
        { ret := r.ret, db := r.db, upstreamCalled := true
          discoveryAttempted := r.discoveryAttempted }
    | none =>
      let r := refresh_file_id db now fr probe
      { ret := r.ret, db := r.db, upstreamCalled := true
        discoveryAttempted := r.discoveryAttempted }

/-- `StorageManager.get_file_stream`.  The second `bot.get_file` and the
HTTP download are modelled by the outcome `getFile2`, the HTTP `status`,
and the downloaded `content` bytes.  On success the source returns
`(BytesIO(content), file_ref.get('filename', 'unknown'), len(content))`:
the stored filename but the length of the *downloaded* content, not the
declared `file_size`.  Every failure path returns `None`. -/
def get_file_stream (db : DBState) (now : Int) (rid : String)
    (probe getFile2 : GetFileOutcome) (status : Nat) (content : List Nat) :
    Option (List Nat × String × Nat) × DBState :=
  let r := get_fresh_file_id db now rid probe
  match r.ret with
  | none => (none, r.db)
  | some _ =>
    match getFile2 with
    | GetFileOutcome.err _ => (none, r.db)
    | GetFileOutcome.ok =>
      if status = 200 then
        match get_file_reference r.db rid with
        | some fr2 => (some (content, fr2.filename, content.length), r.db)
        | none => (none, r.db)
      else (none, r.db)

/-- `StorageManager.delete_file_reference`: the soft delete, implemented
as `update_file_reference(rid, {"is_active": False})`. -/
def delete_file_reference (db : DBState) (now : Int) (rid : String) : DBState × Bool :=
  update_file_reference db now rid { telegramFileId := none, isActive := some false }

/-- The per-item body of one sweeper cycle (`start_file_refresh_task`):
refresh each listed reference in order, threading the database through,
and record which reference ids were refreshed.  `probe` gives the
upstream probe outcome per reference id. -/
def sweep_loop (db : DBState) (now : Int) (probe : String → GetFileOutcome) :
    List FileReference → DBState × List String
  | [] => (db, [])
  | fr :: rest =>
    let r := refresh_file_id db now fr (probe fr.referenceId)
    let rec2 := sweep_loop r.db now probe rest
    (rec2.1, fr.referenceId :: rec2.2)

/-- One cycle of `start_file_refresh_task`: query
`get_expired_file_references(self.file_refresh_interval)` and call
`refresh_file_id` on each returned document. -/
def sweep_cycle (db : DBState) (now : Int) (probe : String → GetFileOutcome) :
    DBState × List String :=
  sweep_loop db now probe (get_expired_file_references db now file_refresh_interval)

/-- Whether `needle` matches at the head of `hay`. -/
def matchesAt : List Char → List Char → Bool
  | [], _ => true
  | _ :: _, [] => false
  | a :: as, b :: bs => (a == b) && matchesAt as bs

/-- Whether `needle` occurs contiguously anywhere in `hay`. -/
def hasSubList (needle : List Char) : List Char → Bool
  | [] => matchesAt needle []
  | b :: bs => matchesAt needle (b :: bs) || hasSubList needle bs

/-- Python's `needle in hay` on strings: contiguous substring test. -/
def strContainsSub (needle hay : String) : Bool :=
  hasSubList needle.toList hay.toList

/-- The mime classification of `process_channel_media` for a document
payload: `'video' in mime` wins, then `'pdf' in mime`, else
`'document'`; a missing mime type also gives `'document'`. -/
def classify_document_mime : Option String → String
  | some mt =>
    if strContainsSub "video" mt then "video"
    else if strContainsSub "pdf" mt then "pdf"
    else "document"
  | none => "document"

/-- A Telegram media payload (`message.document` or `message.video`):
the attributes the ingestion path reads. -/
structure MediaPayload where
  fileId : String
  fileSize : Nat
  fileName : Option String
  mimeType : Option String
deriving Repr, DecidableEq

/-- The slice of a Telegram message that `process_channel_media` reads. -/
structure Message where
  chatId : String
  chatType : String
  messageId : Nat
  document : Option MediaPayload
  video : Option MediaPayload
deriving Repr, DecidableEq

/-- The fallback filename `f"{file_type}_{file_info.file_id[:10]}"`. -/
def fallbackFilename (fileType fileId : String) : String :=
  fileType ++ "_" ++ String.mk (fileId.toList.take 10)

/-- `StorageManager.create_file_reference` followed by
`Database.create_file_reference`: build the document (with
`is_active = True`), stamp `created_at` and `last_refreshed`, insert. -/
def create_file_reference (db : DBState) (now : Int) (rid : String)
    (telegramFileId fileType filename : String) (fileSize : Nat)
    (courseId channelId : Option String) : DBState :=
  let fr : FileReference :=
    { referenceId := rid, telegramFileId := telegramFileId, fileType := fileType
      filename := filename, fileSize := fileSize, courseId := courseId
      channelId := channelId, isActive := true, createdAt := now
      lastRefreshed := some now }
  { db with fileReferences := db.fileReferences ++ [fr] }

/-- `Database.create_media_file`: insert the catalog document. -/
def create_media_file (db : DBState) (mf : MediaFile) : DBState :=
  { db with mediaFiles := db.mediaFiles ++ [mf] }

/-- The registration step of `process_channel_media` once a payload and a
file type are in hand: create the `FileReference` and the `media_files`
catalog entry under the mapping's course. -/
def ingestPayload (db : DBState) (now : Int) (rid : String) (m : Message)
    (mapping : ChannelMapping) (p : MediaPayload) (ft : String) : DBState :=
  let fname := p.fileName.getD (fallbackFilename ft p.fileId)
  let db2 := create_file_reference db now rid p.fileId ft fname p.fileSize
    (some mapping.courseId) (some m.chatId)
  create_media_file db2
    { referenceId := rid, courseId := some mapping.courseId, fileType := ft
      filename := fname, fileSize := p.fileSize, telegramFileId := p.fileId
      channelId := m.chatId, messageId := m.messageId, order := 0, isActive := true }

/-- `StorageManager.process_channel_media`.  `rid` stands for the random
`generate_reference_id()` output.  A missing message, a chat type other
than group/supergroup/channel, an unmapped channel, or a payload that is
neither a document nor a video all leave the database untouched. -/
def process_channel_media (db : DBState) (now : Int) (rid : String)
    (upd : Option Message) : DBState :=
  match upd with
  | none => db
  | some m =>
    if m.chatType == "group" || m.chatType == "supergroup" || m.chatType == "channel" then
      match get_channel_mapping db m.chatId with
      | none => db
      | some mapping =>
        match m.document with
        | some d => ingestPayload db now rid m mapping d (classify_document_mime d.mimeType)
        | none =>
          match m.video with
          | some v => ingestPayload db now rid m mapping v "video"
          | none => db
    else db

/-- Insertion step for the `sort("order", ASCENDING)` in
`get_course_media_files`. -/
def insertByOrder (x : MediaFile) : List MediaFile → List MediaFile
  | [] => [x]
  | y :: ys => if x.order ≤ y.order then x :: y :: ys else y :: insertByOrder x ys

/-- Stable sort on the `order` field. -/
def sortByOrder : List MediaFile → List MediaFile
  | [] => []
  | x :: xs => insertByOrder x (sortByOrder xs)

/-- `Database.get_course_media_files`: filter on `course_id`, add a
`file_type` filter only when the argument is truthy (a non-empty
string), sort by `order`. -/
def get_course_media_files (db : DBState) (courseId : String)
    (fileType : Option String) : List MediaFile :=
  let base := db.mediaFiles.filter (fun r => r.courseId == some courseId)
  let filtered :=
    match fileType with
    | some ft => if ft = "" then base else base.filter (fun r => r.fileType == ft)
    | none => base
  sortByOrder filtered

/-- The dictionary returned by `get_storage_stats`. -/
structure StorageStats where
  totalFiles : Int
  videoFiles : Int
  pdfFiles : Int
  documentFiles : Int
deriving Repr, DecidableEq

/-- `StorageManager.get_storage_stats`: total count over all media
files, per-type counts via `get_course_media_files("", type)`, and the
document count as the remainder. -/
def get_storage_stats (db : DBState) : StorageStats :=
  let total : Int := db.mediaFiles.length
  let video : Int := (get_course_media_files db "" (some "video")).length
  let pdf : Int := (get_course_media_files db "" (some "pdf")).length
  { totalFiles := total, videoFiles := video, pdfFiles := pdf
    documentFiles := total - video - pdf }

/-! ## Helper lemmas -/

/-- A `$set` payload never touches `reference_id`. -/
theorem applyFileRefUpdate_referenceId (now : Int) (u : FileRefUpdate) (r : FileReference) :
    (applyFileRefUpdate now u r).referenceId = r.referenceId := rfl

/-- Looking a reference up after `update_one` on the same key yields the
updated document (both operate on the first match). -/
theorem find?_updateFirst (now : Int) (u : FileRefUpdate) (rid : String) :
    ∀ l : List FileReference,
      (updateFirst (fun r => r.referenceId == rid) (applyFileRefUpdate now u) l).find?
          (fun r => r.referenceId == rid) =
        (l.find? (fun r => r.referenceId == rid)).map (applyFileRefUpdate now u)
  | [] => rfl
  | x :: xs => by
    cases h : (x.referenceId == rid) with
    | true =>
      have hf : ((applyFileRefUpdate now u x).referenceId == rid) = true := by
        rw [applyFileRefUpdate_referenceId]; exact h
      simp [updateFirst, h, List.find?, hf]
    | false =>
      simp [updateFirst, h, List.find?, find?_updateFirst now u rid xs]

/-- `get_file_reference` after `update_file_reference` on the same id. -/
theorem get_file_reference_update (db : DBState) (now : Int) (rid : String)
    (u : FileRefUpdate) :
    get_file_reference (update_file_reference db now rid u).1 rid =
      (get_file_reference db rid).map (applyFileRefUpdate now u) := by
  simp only [get_file_reference, update_file_reference]
  exact find?_updateFirst now u rid db.fileReferences

/-- A found reference carries the id it was looked up by. -/
theorem get_file_reference_id_eq (db : DBState) (rid : String) (fr : FileReference)
    (hfind : get_file_reference db rid = some fr) : fr.referenceId = rid := by
  have h2 : db.fileReferences.find? (fun r => r.referenceId == rid) = some fr := hfind
  have h3 := List.find?_some h2
  simpa using h3

/-! ## Concrete states used by the closed theorems -/

def c1Ref : FileReference :=
  { referenceId := "r1c", telegramFileId := "A1", fileType := "pdf"
    filename := "a.pdf", fileSize := 100, courseId := some "course1"
    channelId := some "ch1", isActive := false, createdAt := 0, lastRefreshed := some 0 }

def c1DB : DBState := { fileReferences := [c1Ref], mediaFiles := [], channelMappings := [] }

def c2Ref : FileReference :=
  { referenceId := "r2c", telegramFileId := "A2", fileType := "video"
    filename := "b.mp4", fileSize := 50, courseId := some "course1"
    channelId := some "ch1", isActive := true, createdAt := 0, lastRefreshed := some 0 }

def c2DB : DBState := { fileReferences := [c2Ref], mediaFiles := [], channelMappings := [] }

def c3Ref : FileReference :=
  { referenceId := "r3c", telegramFileId := "A3", fileType := "pdf"
    filename := "c.pdf", fileSize := 10, courseId := none
    channelId := none, isActive := true, createdAt := 0, lastRefreshed := some 0 }

def c3DB : DBState := { fileReferences := [c3Ref], mediaFiles := [], channelMappings := [] }

def c4Ref : FileReference :=
  { referenceId := "r4c", telegramFileId := "A4", fileType := "document"
    filename := "d.docx", fileSize := 10, courseId := none
    channelId := none, isActive := true, createdAt := 0, lastRefreshed := some 0 }

def c4DB : DBState := { fileReferences := [c4Ref], mediaFiles := [], channelMappings := [] }

/-! ## Claim theorems -/

/-- C1 (code bug): `get_fresh_file_id` never consults the `is_active`
flag.  In `c1DB` the stored reference is inactive (`is_active = false`)
and fresh, yet resolution returns the stored handle `"A1"` instead of
the `NotFound` (`None`) the spec requires, without even an upstream
call. -/
theorem inactive_reference_still_resolves :
    (get_file_reference c1DB "r1c").map FileReference.isActive = some false ∧
    (get_fresh_file_id c1DB 0 "r1c" GetFileOutcome.ok).ret = some "A1" ∧
    (get_fresh_file_id c1DB 0 "r1c" GetFileOutcome.ok).upstreamCalled = false :=
  ⟨rfl, rfl, rfl⟩

/-- C2 (counterexample): a Tier-1 probe that fails with the transient
`timedOut` error does trigger Tier-2 re-discovery — the single
`except TelegramError` in `refresh_file_id` catches transient errors and
confirmed-invalid handles alike — and the call returns `None`, the very
value that signals `Unresolvable`, not a distinct retryable error. -/
theorem transient_error_triggers_discovery :
    (refresh_file_id c2DB 0 c2Ref (GetFileOutcome.err TgError.timedOut)).discoveryAttempted
        = true ∧
    (refresh_file_id c2DB 0 c2Ref (GetFileOutcome.err TgError.timedOut)).ret = none :=
  ⟨rfl, rfl⟩

/-- C2 (amended): on any `TelegramError` from the Tier-1 probe — the
transient kinds (timeout, network failure, rate limit) included —
`refresh_file_id` proceeds to Tier-2 re-discovery; since the discovery
stub finds nothing it returns `None` (the same value as for an
unresolvable confirmed-invalid handle) and leaves the stored reference
unmutated. -/
theorem refresh_on_any_telegram_error (db : DBState) (now : Int) (fr : FileReference)
    (e : TgError) :
    refresh_file_id db now fr (GetFileOutcome.err e) =
      { ret := none, db := db, discoveryAttempted := true } := rfl

/-- C3: a reference whose age is strictly below the 23-hour TTL resolves
to the stored handle with no upstream call and no store write: the
result is exactly the stored `telegram_file_id` and the database is
returned unchanged. -/
theorem fresh_reference_resolves_locally (db : DBState) (now lr : Int) (rid : String)
    (fr : FileReference) (probe : GetFileOutcome)
    (hfind : get_file_reference db rid = some fr)
    (hlr : fr.lastRefreshed = some lr)
    (hage : now - lr < 82800) :
    get_fresh_file_id db now rid probe =
      { ret := some fr.telegramFileId, db := db
        upstreamCalled := false, discoveryAttempted := false } := by
  have hc : now - lr < file_refresh_interval * 3600 := by
    unfold file_refresh_interval; omega
  simp only [get_fresh_file_id, hfind, hlr, if_pos hc]

theorem fresh_reference_resolves_locally_witness :
    get_fresh_file_id c3DB 10 "r3c" GetFileOutcome.ok =
      { ret := some "A3", db := c3DB, upstreamCalled := false
        discoveryAttempted := false } :=
  fresh_reference_resolves_locally c3DB 10 0 "r3c" c3Ref GetFileOutcome.ok rfl rfl
    (by decide)

/-- C4: when the reference is stale (age at least the TTL) and the
Tier-1 probe succeeds, resolution returns the stored handle and the
stored document afterwards differs only in `last_refreshed`, which now
holds the resolution time (`telegram_file_id` is rewritten to its old
value). -/
theorem stale_probe_ok_updates_timestamp (db : DBState) (now lr : Int) (rid : String)
    (fr : FileReference)
    (hfind : get_file_reference db rid = some fr)
    (hlr : fr.lastRefreshed = some lr)
    (hage : 82800 ≤ now - lr) :
    (get_fresh_file_id db now rid GetFileOutcome.ok).ret = some fr.telegramFileId ∧
    get_file_reference (get_fresh_file_id db now rid GetFileOutcome.ok).db rid =
      some { fr with lastRefreshed := some now } := by
  have hrid : fr.referenceId = rid := get_file_reference_id_eq db rid fr hfind
  have hc : ¬ now - lr < file_refresh_interval * 3600 := by
    unfold file_refresh_interval; omega
  simp only [get_fresh_file_id, hfind, hlr, if_neg hc, refresh_file_id]
  refine ⟨trivial, ?_⟩
  rw [hrid, get_file_reference_update, hfind]
  simp [applyFileRefUpdate, hrid]

theorem stale_probe_ok_updates_timestamp_witness :
    (get_fresh_file_id c4DB 82800 "r4c" GetFileOutcome.ok).ret = some "A4" ∧
    get_file_reference (get_fresh_file_id c4DB 82800 "r4c" GetFileOutcome.ok).db "r4c" =
      some { c4Ref with lastRefreshed := some 82800 } :=
  stale_probe_ok_updates_timestamp c4DB 82800 0 "r4c" c4Ref rfl rfl (by decide)

/-- C5: when the Tier-1 probe reports the handle invalid and Tier-2
re-discovery fails (the discovery stub always fails), `refresh_file_id`
returns `None` (`Unresolvable`) and the database — hence the stored
`telegram_file_id`, `last_refreshed` and `is_active` — is returned
exactly as it was; in particular an active reference stays active. -/
theorem tier2_failure_leaves_state_unchanged (db : DBState) (now : Int)
    (fr : FileReference) :
    refresh_file_id db now fr (GetFileOutcome.err TgError.invalidFile) =
      { ret := none, db := db, discoveryAttempted := true } := rfl

def c6Ref : FileReference :=
  { referenceId := "r6c", telegramFileId := "A6", fileType := "pdf"
    filename := "f.pdf", fileSize := 100, courseId := none
    channelId := none, isActive := true, createdAt := 0, lastRefreshed := some 0 }

def c6DB : DBState := { fileReferences := [c6Ref], mediaFiles := [], channelMappings := [] }

/-- C6 (counterexample): the stored reference declares `file_size = 100`
at ingestion, but a successful `get_file_stream` whose download produced
the 3-byte content `[7, 8, 9]` returns size `len(content) = 3`, not the
declared 100: the size paired with the stream is the downloaded length,
not the reference's recorded metadata. -/
theorem stream_returns_downloaded_length :
    (get_file_stream c6DB 0 "r6c" GetFileOutcome.ok GetFileOutcome.ok 200 [7, 8, 9]).1 =
      some ([7, 8, 9], "f.pdf", 3) ∧
    (get_file_reference c6DB "r6c").map FileReference.fileSize = some 100 ∧
    (3 : Nat) ≠ 100 :=
  ⟨rfl, rfl, by decide⟩

/-- C6 (amended): a successful `get_file_stream` call returns the byte
stream paired with the filename stored on the FileReference and the
length of the downloaded content (not the declared `file_size` recorded
at ingestion). -/
theorem stream_metadata_shape (db : DBState) (now : Int) (rid : String)
    (probe : GetFileOutcome) (content : List Nat) (fid : String) (fr2 : FileReference)
    (h1 : (get_fresh_file_id db now rid probe).ret = some fid)
    (h2 : get_file_reference (get_fresh_file_id db now rid probe).db rid = some fr2) :
    (get_file_stream db now rid probe GetFileOutcome.ok 200 content).1 =
      some (content, fr2.filename, content.length) := by
  simp [get_file_stream, h1, h2]

theorem stream_metadata_shape_witness :
    (get_file_stream c6DB 0 "r6c" GetFileOutcome.ok GetFileOutcome.ok 200 [1, 2]).1 =
      some ([1, 2], "f.pdf", 2) :=
  stream_metadata_shape c6DB 0 "r6c" GetFileOutcome.ok [1, 2] "A6" c6Ref rfl rfl

def c7RefInactive : FileReference :=
  { referenceId := "r7i", telegramFileId := "A7", fileType := "pdf"
    filename := "g.pdf", fileSize := 10, courseId := none
    channelId := none, isActive := false, createdAt := 0, lastRefreshed := some 0 }

def c7RefEdge : FileReference :=
  { referenceId := "r7e", telegramFileId := "B7", fileType := "pdf"
    filename := "h.pdf", fileSize := 10, courseId := none
    channelId := none, isActive := true, createdAt := 0, lastRefreshed := some 1 }

def c7DB : DBState :=
  { fileReferences := [c7RefInactive, c7RefEdge], mediaFiles := [], channelMappings := [] }

/-- C7 (counterexample): at `now = 82801` the expiry scan returns
exactly the inactive reference (age 82801 s, just past the TTL) and
omits the active reference whose age is exactly the TTL (82800 s):
`get_expired_file_references` has no `is_active` filter and its
comparison is strict (`age > TTL`, not `age ≥ TTL`). -/
theorem expired_query_ignores_active_flag :
    (get_expired_file_references c7DB 82801 23).map FileReference.referenceId = ["r7i"] ∧
    (get_file_reference c7DB "r7i").map FileReference.isActive = some false ∧
    (get_file_reference c7DB "r7e").map FileReference.lastRefreshed = some (some 1) :=
  ⟨rfl, rfl, rfl⟩

/-- `sweep_loop` refreshes exactly the listed references, in order. -/
theorem sweep_loop_ids (now : Int) (probe : String → GetFileOutcome) :
    ∀ (l : List FileReference) (db : DBState),
      (sweep_loop db now probe l).2 = l.map (fun r => r.referenceId)
  | [], _ => rfl
  | fr :: rest, db => by
    simp [sweep_loop, sweep_loop_ids now probe rest]

/-- C7 (amended): each sweeper cycle queries for the stored references —
active or not — whose age is strictly greater than the 23-hour TTL
(references with a null `last_refreshed` are never returned), and
invokes the refresh strategy on exactly the references returned, in
order. -/
theorem sweeper_cycle_characterization (db : DBState) (now : Int)
    (probe : String → GetFileOutcome) :
    (∀ r, r ∈ get_expired_file_references db now 23 ↔
      r ∈ db.fileReferences ∧ ∃ t, r.lastRefreshed = some t ∧ now - t > 82800) ∧
    (sweep_cycle db now probe).2 =
      (get_expired_file_references db now 23).map (fun r => r.referenceId) := by
  constructor
  · intro r
    simp only [get_expired_file_references, List.mem_filter]
    cases hlr : r.lastRefreshed with
    | none => simp [hlr]
    | some t =>
      simp only [hlr, decide_eq_true_eq, Option.some.injEq]
      constructor
      · rintro ⟨hm, ht⟩
        exact ⟨hm, t, rfl, by omega⟩
      · rintro ⟨hm, t2, ht2, hgt⟩
        refine ⟨hm, ?_⟩
        cases ht2
        omega
  · exact sweep_loop_ids now probe _ db

def c8Ref : FileReference :=
  { referenceId := "r8c", telegramFileId := "A8", fileType := "video"
    filename := "i.mp4", fileSize := 10, courseId := none
    channelId := none, isActive := true, createdAt := 0, lastRefreshed := some 0 }

def c8DB : DBState := { fileReferences := [c8Ref], mediaFiles := [], channelMappings := [] }

/-- C8 (counterexample): the soft delete writes `last_refreshed`:
`update_file_reference` stamps `last_refreshed = now` unconditionally,
so deleting `r8c` at time 100 moves its timestamp from 0 to 100 — the
delete path does not leave the (`upstream_handle`, `last_refreshed`)
pair untouched. -/
theorem delete_bumps_last_refreshed :
    (get_file_reference c8DB "r8c").map FileReference.lastRefreshed = some (some 0) ∧
    (get_file_reference (delete_file_reference c8DB 100 "r8c").1 "r8c").map
        FileReference.lastRefreshed = some (some 100) ∧
    (some (0 : Int) : Option Int) ≠ some 100 :=
  ⟨rfl, rfl, by decide⟩

/-- C8 (amended): `delete_file_reference` sets `is_active := false` and
leaves `telegram_file_id` and every descriptive field unchanged, but —
because it goes through `update_file_reference`, which stamps the
timestamp on every call — it also rewrites `last_refreshed` to the
deletion time; the soft-delete path therefore writes one half of the
(`upstream_handle`, `last_refreshed`) pair. -/
theorem delete_sets_inactive_and_stamps_time (db : DBState) (now : Int) (rid : String) :
    get_file_reference (delete_file_reference db now rid).1 rid =
      (get_file_reference db rid).map
        (fun fr => { fr with isActive := false, lastRefreshed := some now }) := by
  unfold delete_file_reference
  rw [get_file_reference_update]
  cases get_file_reference db rid <;> rfl

def c9Mapping : ChannelMapping :=
  { channelId := "ch9", courseId := "course9", isActive := true }

def c9DB : DBState :=
  { fileReferences := [], mediaFiles := [], channelMappings := [c9Mapping] }

def c9Payload : MediaPayload :=
  { fileId := "F9", fileSize := 5, fileName := some "x.bin", mimeType := some "video/pdf" }

def c9Msg : Message :=
  { chatId := "ch9", chatType := "channel", messageId := 1
    document := some c9Payload, video := none }

/-- C9 (counterexample): a document posted to a mapped channel with mime
type `"video/pdf"` — a string that contains `'pdf'` — is ingested with
`file_type = "video"`, because the source tests `'video' in mime` before
`'pdf' in mime`; it is neither classified `pdf` (as the pdf clause of the
claim says) nor `document` (as the ambiguous clause would say). -/
theorem video_pdf_mime_classified_video :
    strContainsSub "pdf" "video/pdf" = true ∧
    (process_channel_media c9DB 0 "ref9" (some c9Msg)).fileReferences.map
        FileReference.fileType = ["video"] ∧
    ("video" : String) ≠ "pdf" :=
  ⟨by decide, rfl, by decide⟩

/-- C9 (amended): an event from an unmapped channel leaves the whole
database — references and catalog alike — untouched; for a mapped
channel a document is classified with `'video' in mime` taking
precedence, then `'pdf' in mime`, defaulting to `document` on a missing
or unrecognised mime type; a video payload is ingested as `video`; and a
mapped document event appends exactly one FileReference with the
classified type under the mapping's course. -/
theorem ingest_classification_characterization :
    (∀ (db : DBState) (now : Int) (rid : String) (m : Message),
      get_channel_mapping db m.chatId = none →
      process_channel_media db now rid (some m) = db) ∧
    (∀ mt, strContainsSub "video" mt = true →
      classify_document_mime (some mt) = "video") ∧
    (∀ mt, strContainsSub "video" mt = false → strContainsSub "pdf" mt = true →
      classify_document_mime (some mt) = "pdf") ∧
    (∀ mt, strContainsSub "video" mt = false → strContainsSub "pdf" mt = false →
      classify_document_mime (some mt) = "document") ∧
    classify_document_mime none = "document" ∧
    (∀ (db : DBState) (now : Int) (rid : String) (m : Message) (mp : ChannelMapping)
        (d : MediaPayload),
      m.chatType = "channel" → get_channel_mapping db m.chatId = some mp →
      m.document = some d →
      (process_channel_media db now rid (some m)).fileReferences =
        db.fileReferences ++
          [{ referenceId := rid, telegramFileId := d.fileId
             fileType := classify_document_mime d.mimeType
             filename := d.fileName.getD
               (fallbackFilename (classify_document_mime d.mimeType) d.fileId)
             fileSize := d.fileSize, courseId := some mp.courseId
             channelId := some m.chatId, isActive := true, createdAt := now
             lastRefreshed := some now }]) ∧
    (∀ (db : DBState) (now : Int) (rid : String) (m : Message) (mp : ChannelMapping)
        (v : MediaPayload),
      m.chatType = "channel" → get_channel_mapping db m.chatId = some mp →
      m.document = none → m.video = some v →
      (process_channel_media db now rid (some m)).fileReferences.map
          FileReference.fileType =
        db.fileReferences.map FileReference.fileType ++ ["video"]) := by
  refine ⟨?_, ?_, ?_, ?_, rfl, ?_, ?_⟩
  · intro db now rid m h
    simp [process_channel_media, h]
  · intro mt h
    simp [classify_document_mime, h]
  · intro mt h1 h2
    simp [classify_document_mime, h1, h2]
  · intro mt h1 h2
    simp [classify_document_mime, h1, h2]
  · intro db now rid m mp d hct hmap hdoc
    simp [process_channel_media, hct, hmap, hdoc, ingestPayload,
      create_file_reference, create_media_file]
  · intro db now rid m mp v hct hmap hdoc hvid
    simp [process_channel_media, hct, hmap, hdoc, hvid, ingestPayload,
      create_file_reference, create_media_file]

def c9uDB : DBState := { fileReferences := [], mediaFiles := [], channelMappings := [] }

def c9uMsg : Message :=
  { chatId := "chU", chatType := "channel", messageId := 2
    document := some c9Payload, video := none }

theorem ingest_classification_witness :
    process_channel_media c9uDB 0 "refU" (some c9uMsg) = c9uDB ∧
    classify_document_mime (some "application/pdf") = "pdf" :=
  ⟨ingest_classification_characterization.1 c9uDB 0 "refU" c9uMsg rfl,
   ingest_classification_characterization.2.2.1 "application/pdf" (by decide) (by decide)⟩

/-- Inserting into the order-sorted list adds exactly one element. -/
theorem length_insertByOrder (x : MediaFile) :
    ∀ l : List MediaFile, (insertByOrder x l).length = l.length + 1
  | [] => rfl
  | y :: ys => by
    simp only [insertByOrder]
    split
    · simp
    · simp [length_insertByOrder x ys]

/-- Sorting by `order` preserves length. -/
theorem length_sortByOrder :
    ∀ l : List MediaFile, (sortByOrder l).length = l.length
  | [] => rfl
  | x :: xs => by simp [sortByOrder, length_insertByOrder, length_sortByOrder xs]

/-- Two successive filters collapse into one conjunctive filter. -/
theorem filter_comp (p q : MediaFile → Bool) :
    ∀ l : List MediaFile, (l.filter p).filter q = l.filter (fun a => p a && q a)
  | [] => rfl
  | x :: xs => by
    cases hp : p x <;> simp [List.filter, hp, filter_comp p q xs]

/-- C10: `get_storage_stats` reports `total_files` as the size of the
whole `media_files` collection, while `video_files` and `pdf_files`
count only the records whose `course_id` is the empty string and whose
`file_type` is `video` resp. `pdf` — records registered under any
non-empty course id are never counted in the breakdown — and
`document_files` is `total - video - pdf`. -/
theorem storage_stats_characterization (db : DBState) :
    (get_storage_stats db).totalFiles = (db.mediaFiles.length : Int) ∧
    (get_storage_stats db).videoFiles =
      ((db.mediaFiles.filter
        (fun r => r.courseId == some "" && r.fileType == "video")).length : Int) ∧
    (get_storage_stats db).pdfFiles =
      ((db.mediaFiles.filter
        (fun r => r.courseId == some "" && r.fileType == "pdf")).length : Int) ∧
    (get_storage_stats db).documentFiles =
      (get_storage_stats db).totalFiles - (get_storage_stats db).videoFiles -
        (get_storage_stats db).pdfFiles := by
  have key : ∀ ft : String, ¬ ft = "" →
      (get_course_media_files db "" (some ft)).length =
        (db.mediaFiles.filter
          (fun r => r.courseId == some "" && r.fileType == ft)).length := by
    intro ft hft
    simp only [get_course_media_files]
    rw [if_neg hft, length_sortByOrder, filter_comp]
  refine ⟨rfl, ?_, ?_, rfl⟩
  · simp only [get_storage_stats]
    rw [key "video" (by decide)]
  · simp only [get_storage_stats]
    rw [key "pdf" (by decide)]

end EduLearn
